import Mathlib

/-!
Verification of the LLM summary synthesis engine of the aggregator
repository (`aggregator/plugins/llm_summary/services.py` and
`models.py`), as a shallow embedding.

Modelling conventions:
* Python `float` values are modelled as exact rationals (`ℚ`); `math.sqrt`
  is modelled as `Real.sqrt`, so quantities derived from a square root live
  in `ℝ`.
* `datetime.date` values are modelled as integers counting days, so
  `end_date - timedelta(days = n)` becomes `end_date - n` and
  `(a - b).days` becomes `a - b`.
* Python strings are modelled as `String`, except where character level
  slicing and length matter (the context budget logic), where they are
  modelled as `List Char`.
* Python `None` is modelled with `Option`; `round` is modelled as exact
  round half to even on the scaled value.
* Python `sorted` (a stable sort) is modelled with `List.insertionSort`,
  which is also stable.
-/

/-- The window names of the `Window` enum in `models.py` (a str valued
enum whose member values equal the member names). -/
inductive Window where
  | LAST_7_DAYS
  | LAST_30_DAYS
  | LAST_90_DAYS
  | PRIOR_30_DAYS
  | PRIOR_90_DAYS
  | LAST_12_MONTHS
  deriving DecidableEq, Repr

/-- The string a `Window` member renders to inside an f-string caveat
message (the value of the str valued enum member). -/
def window_str : Window → String
  | .LAST_7_DAYS => "LAST_7_DAYS"
  | .LAST_30_DAYS => "LAST_30_DAYS"
  | .LAST_90_DAYS => "LAST_90_DAYS"
  | .PRIOR_30_DAYS => "PRIOR_30_DAYS"
  | .PRIOR_90_DAYS => "PRIOR_90_DAYS"
  | .LAST_12_MONTHS => "LAST_12_MONTHS"

/-- The `Metric` dataclass of `models.py`.  `value` is declared `float`
but `_validate_metrics` guards against `None`, hence `Option ℚ`. -/
structure Metric where
  name : String
  source : String
  window : Window
  value : Option ℚ
  unit : String
  coverage_days : ℤ
  confidence : String
  deriving DecidableEq, Repr

/-- The inner `find` of `_validate_metrics` (services.py lines 739-743):
first metric matching source, window and name in the ORIGINAL input
list. -/
def find_metric (metrics : List Metric) (source : String) (window : Window)
    (name : String) : Option Metric :=
  metrics.find? (fun m => m.source == source && m.window == window && m.name == name)

/-- The caveat appended for a negative metric (services.py line 749). -/
def negative_caveat (m : Metric) : String :=
  "Dropped negative metric " ++ m.name ++ " " ++ m.source ++ " " ++ window_str m.window

/-- The caveat appended when a LAST_30_DAYS value exceeds the LAST_90_DAYS
value for the same source and name (services.py line 758). -/
def window_conflict_caveat (m : Metric) : String :=
  "Dropped " ++ m.source ++ " " ++ m.name ++ " last 30 metrics due to exceeding last 90 window."

/-- True when the first loop of `_validate_metrics` keeps the metric:
its value is present and not negative (lines 745-751; a `None` value is
skipped without a caveat). -/
def metric_keep (m : Metric) : Bool :=
  match m.value with
  | some v => !(decide (v < 0))
  | none => false

/-- True when the first loop of `_validate_metrics` drops the metric with
a negativity caveat: its value is present and negative. -/
def metric_negative (m : Metric) : Bool :=
  match m.value with
  | some v => decide (v < 0)
  | none => false

/-- The first loop of `_validate_metrics` (lines 745-751) as a pair of
filters: the kept metrics in order, and the caveats in detection order. -/
def drop_negative (metrics : List Metric) : List Metric × List String :=
  (metrics.filter metric_keep, (metrics.filter metric_negative).map negative_caveat)

/-- The Python comparison `last30.value > last90.value` (line 757).  In
the reachable flow both values are floats; both loops only reach this
comparison with values present. -/
def opt_gt : Option ℚ → Option ℚ → Bool
  | some a, some b => decide (b < a)
  | _, _ => false

/-- The drop condition of the second loop of `_validate_metrics` (line
757): both windows found in the original list, the 30 day value strictly
exceeds the 90 day value, and the metric at hand is the 30 day one. -/
def conflict_drop (metrics : List Metric) (m : Metric) : Bool :=
  match find_metric metrics m.source .LAST_30_DAYS m.name,
        find_metric metrics m.source .LAST_90_DAYS m.name with
  | some last30, some last90 =>
      opt_gt last30.value last90.value && (m.window == Window.LAST_30_DAYS)
  | _, _ => false

/-- The second loop of `_validate_metrics` (lines 753-760) as a pair of
filters over the already negativity-filtered list. -/
def drop_window_conflicts (metrics : List Metric) (filtered : List Metric) :
    List Metric × List String :=
  (filtered.filter (fun m => !(conflict_drop metrics m)),
   (filtered.filter (conflict_drop metrics)).map window_conflict_caveat)

/-- `_validate_metrics` (services.py lines 735-761): drop negative
values, then drop 30 day metrics exceeding their 90 day counterpart;
caveats of the first loop precede those of the second. -/
def validate_metrics (metrics : List Metric) : List Metric × List String :=
  let fst_pass := drop_negative metrics
  let snd_pass := drop_window_conflicts metrics fst_pass.1
  (snd_pass.1, fst_pass.2 ++ snd_pass.2)

/-- `_window_ranges` (services.py lines 726-733): the dict of named half
open windows, in insertion order. -/
def window_ranges (end_date : ℤ) : List (String × (ℤ × ℤ)) :=
  [("LAST_7_DAYS", (end_date - 7, end_date)),
   ("LAST_30_DAYS", (end_date - 30, end_date)),
   ("PRIOR_30_DAYS", (end_date - 60, end_date - 30)),
   ("LAST_90_DAYS", (end_date - 90, end_date)),
   ("PRIOR_90_DAYS", (end_date - 180, end_date - 90))]

/-- `_date_range` (services.py lines 553-561).  `datetime.utcnow().date()`
is passed explicitly as `today`. -/
def date_range (period : String) (today : ℤ) : ℤ × ℤ :=
  if period == "last_month" then (today - 30, today)
  else if period == "last_90_days" then (today - 90, today)
  else (today - 365, today)

/-- C7: for every anchor end date, `_window_ranges` returns exactly the
five documented half open ranges, and for N in 30, 90 the end of
PRIOR_N_DAYS equals the start of LAST_N_DAYS (adjacent, no gap or
overlap). -/
theorem window_ranges_spec (e : ℤ) :
    (window_ranges e).lookup "LAST_7_DAYS" = some (e - 7, e) ∧
    (window_ranges e).lookup "LAST_30_DAYS" = some (e - 30, e) ∧
    (window_ranges e).lookup "PRIOR_30_DAYS" = some (e - 60, e - 30) ∧
    (window_ranges e).lookup "LAST_90_DAYS" = some (e - 90, e) ∧
    (window_ranges e).lookup "PRIOR_90_DAYS" = some (e - 180, e - 90) ∧
    ((window_ranges e).lookup "PRIOR_30_DAYS").map Prod.snd
      = ((window_ranges e).lookup "LAST_30_DAYS").map Prod.fst ∧
    ((window_ranges e).lookup "PRIOR_90_DAYS").map Prod.snd
      = ((window_ranges e).lookup "LAST_90_DAYS").map Prod.fst := by
  simp [window_ranges, List.lookup]

/-- C9: `_date_range` for period "last_month" returns a pair spanning
exactly 30 days, hence between 28 and 31 days, ending at the anchor
date. -/
theorem date_range_last_month (today : ℤ) :
    (date_range "last_month" today).2 - (date_range "last_month" today).1 = 30 ∧
    28 ≤ (date_range "last_month" today).2 - (date_range "last_month" today).1 ∧
    (date_range "last_month" today).2 - (date_range "last_month" today).1 ≤ 31 ∧
    (date_range "last_month" today).2 = today := by
  simp [date_range]

/-- Helper: membership in the validated list implies membership in the
negativity-filtered list. -/
theorem mem_of_mem_validate {metrics : List Metric} {m : Metric}
    (hm : m ∈ (validate_metrics metrics).1) : m ∈ (drop_negative metrics).1 :=
  (List.mem_filter.mp hm).1

/-- Helper: metrics kept by the first loop carry a present, nonnegative
value. -/
theorem value_nonneg_of_keep {m : Metric} (hk : metric_keep m = true) :
    ∀ v : ℚ, m.value = some v → 0 ≤ v := by
  intro v hv
  rw [metric_keep, hv] at hk
  simp only [Bool.not_eq_true', decide_eq_false_iff_not, not_lt] at hk
  exact hk

/-- C4: every metric with a negative value is removed by
`_validate_metrics` with the caveat "Dropped negative metric
{name} {source} {window}", and the validated list never holds a metric
with a negative value. -/
theorem validate_metrics_negative (metrics : List Metric) :
    (∀ m ∈ (validate_metrics metrics).1, ∀ v : ℚ, m.value = some v → 0 ≤ v) ∧
    (∀ m ∈ metrics, ∀ v : ℚ, m.value = some v → v < 0 →
      m ∉ (validate_metrics metrics).1 ∧
      negative_caveat m ∈ (validate_metrics metrics).2) := by
  constructor
  · intro m hm
    exact value_nonneg_of_keep (List.mem_filter.mp (mem_of_mem_validate hm)).2
  · intro m hm v hv hneg
    constructor
    · intro hcontra
      have h0 := value_nonneg_of_keep
        (List.mem_filter.mp (mem_of_mem_validate hcontra)).2 v hv
      exact absurd hneg (not_lt.mpr h0)
    · have hmem : m ∈ metrics.filter metric_negative := by
        refine List.mem_filter.mpr ⟨hm, ?_⟩
        rw [metric_negative, hv]
        simpa using hneg
      have : negative_caveat m ∈ (drop_negative metrics).2 :=
        List.mem_map_of_mem negative_caveat hmem
      exact List.mem_append_left _ this

/-- Witness for C4 at a concrete negative metric. -/
theorem validate_metrics_negative_witness :
    (⟨"tasks_completed", "asana", Window.LAST_30_DAYS, some (-2), "count", 10, "high"⟩ : Metric) ∉
      (validate_metrics
        [⟨"tasks_completed", "asana", Window.LAST_30_DAYS, some (-2), "count", 10, "high"⟩]).1 ∧
    negative_caveat
      (⟨"tasks_completed", "asana", Window.LAST_30_DAYS, some (-2), "count", 10, "high"⟩ : Metric) ∈
      (validate_metrics
        [⟨"tasks_completed", "asana", Window.LAST_30_DAYS, some (-2), "count", 10, "high"⟩]).2 :=
  (validate_metrics_negative _).2 _ (by simp) (-2) rfl (by norm_num)

/-- Helper: under a uniqueness hypothesis the inner `find` of
`_validate_metrics` returns exactly the designated metric. -/
theorem find_metric_unique {metrics : List Metric} {m : Metric}
    {src n : String} {w : Window} (hm : m ∈ metrics)
    (hsrc : m.source = src) (hw : m.window = w) (hn : m.name = n)
    (huniq : ∀ x ∈ metrics, x.source = src → x.window = w → x.name = n → x = m) :
    find_metric metrics src w n = some m := by
  unfold find_metric
  cases h : metrics.find? (fun x => x.source == src && x.window == w && x.name == n) with
  | none =>
    exfalso
    have hnone := List.find?_eq_none.mp h m hm
    simp [hsrc, hw, hn] at hnone
  | some x =>
    have hpx := List.find?_some h
    have hxmem := List.mem_of_find?_eq_some h
    simp only [Bool.and_eq_true, beq_iff_eq] at hpx
    exact congrArg some (huniq x hxmem hpx.1.1 hpx.1.2 hpx.2)

/-- Helper: the drop condition for the 30 day metric of a matched pair
reduces to the value comparison. -/
theorem conflict_drop_pair {metrics : List Metric} {m30 m90 : Metric} {v30 v90 : ℚ}
    (hA : find_metric metrics m30.source .LAST_30_DAYS m30.name = some m30)
    (hB : find_metric metrics m30.source .LAST_90_DAYS m30.name = some m90)
    (hv30 : m30.value = some v30) (hv90 : m90.value = some v90)
    (hw30 : m30.window = Window.LAST_30_DAYS) :
    conflict_drop metrics m30 = decide (v90 < v30) := by
  unfold conflict_drop
  rw [hA, hB]
  simp [opt_gt, hv30, hv90, hw30]

/-- Helper: the 90 day metric of a matched pair is never dropped by the
second loop. -/
theorem conflict_drop_pair_keep90 {metrics : List Metric} {m90 : Metric}
    (hw90 : m90.window = Window.LAST_90_DAYS) :
    conflict_drop metrics m90 = false := by
  unfold conflict_drop
  cases find_metric metrics m90.source .LAST_30_DAYS m90.name with
  | none => rfl
  | some l30 =>
    cases find_metric metrics m90.source .LAST_90_DAYS m90.name with
    | none => rfl
    | some l90 => simp [hw90]

/-- C5 amended: for a metric list whose values are all present and
nonnegative, and a (source, name) pair carrying exactly one LAST_30_DAYS
and one LAST_90_DAYS metric, `_validate_metrics` drops exactly the
LAST_30_DAYS metric with a caveat when its value strictly exceeds the
LAST_90_DAYS value, and keeps both otherwise.  (The nonnegativity
restriction is forced: a negative value is removed earlier by the
negativity rule, see the counterexample.) -/
theorem validate_metrics_pair_amended
    (metrics : List Metric) (m30 m90 : Metric) (v30 v90 : ℚ)
    (h30 : m30 ∈ metrics) (h90 : m90 ∈ metrics)
    (hw30 : m30.window = Window.LAST_30_DAYS)
    (hw90 : m90.window = Window.LAST_90_DAYS)
    (hsrc : m90.source = m30.source) (hname : m90.name = m30.name)
    (hv30 : m30.value = some v30) (hv90 : m90.value = some v90)
    (hnonneg : ∀ m ∈ metrics, ∀ v : ℚ, m.value = some v → 0 ≤ v)
    (huniq30 : ∀ x ∈ metrics, x.source = m30.source → x.window = Window.LAST_30_DAYS →
      x.name = m30.name → x = m30)
    (huniq90 : ∀ x ∈ metrics, x.source = m30.source → x.window = Window.LAST_90_DAYS →
      x.name = m30.name → x = m90) :
    (v90 < v30 →
      m30 ∉ (validate_metrics metrics).1 ∧ m90 ∈ (validate_metrics metrics).1 ∧
      window_conflict_caveat m30 ∈ (validate_metrics metrics).2) ∧
    (¬ v90 < v30 →
      m30 ∈ (validate_metrics metrics).1 ∧ m90 ∈ (validate_metrics metrics).1) := by
  have hA : find_metric metrics m30.source .LAST_30_DAYS m30.name = some m30 :=
    find_metric_unique h30 rfl hw30 rfl huniq30
  have hB : find_metric metrics m30.source .LAST_90_DAYS m30.name = some m90 :=
    find_metric_unique h90 hsrc hw90 hname huniq90
  have hkeep30 : metric_keep m30 = true := by
    rw [metric_keep, hv30]
    simpa using not_lt.mpr (hnonneg m30 h30 v30 hv30)
  have hkeep90 : metric_keep m90 = true := by
    rw [metric_keep, hv90]
    simpa using not_lt.mpr (hnonneg m90 h90 v90 hv90)
  have hf30 : m30 ∈ (drop_negative metrics).1 := List.mem_filter.mpr ⟨h30, hkeep30⟩
  have hf90 : m90 ∈ (drop_negative metrics).1 := List.mem_filter.mpr ⟨h90, hkeep90⟩
  have hcd30 : conflict_drop metrics m30 = decide (v90 < v30) :=
    conflict_drop_pair hA hB hv30 hv90 hw30
  have hcd90 : conflict_drop metrics m90 = false := conflict_drop_pair_keep90 hw90
  have hm90kept : m90 ∈ (validate_metrics metrics).1 := by
    refine List.mem_filter.mpr ⟨hf90, ?_⟩
    simp [hcd90]
  constructor
  · intro hlt
    refine ⟨?_, hm90kept, ?_⟩
    · intro hcontra
      have := (List.mem_filter.mp hcontra).2
      rw [hcd30] at this
      simp [hlt] at this
    · have hmem : m30 ∈ (drop_negative metrics).1.filter (conflict_drop metrics) := by
        refine List.mem_filter.mpr ⟨hf30, ?_⟩
        simp [hcd30, hlt]
      exact List.mem_append_right _
        (List.mem_map_of_mem window_conflict_caveat hmem)
  · intro hge
    refine ⟨?_, hm90kept⟩
    refine List.mem_filter.mpr ⟨hf30, ?_⟩
    simp [hcd30, hge]

/-- C5 counterexample: both windows are present for (habitica,
completions) and the 30 day value (-1) is NOT greater than the 90 day
value (5), so the claim asserts both metrics are kept unchanged; the code
instead drops the 30 day metric through the negativity rule.  The claim
as stated is therefore false without a nonnegativity restriction. -/
theorem validate_metrics_pair_counterexample :
    validate_metrics
      [⟨"completions", "habitica", Window.LAST_30_DAYS, some (-1), "count", 10, "high"⟩,
       ⟨"completions", "habitica", Window.LAST_90_DAYS, some 5, "count", 30, "high"⟩]
      = ([⟨"completions", "habitica", Window.LAST_90_DAYS, some 5, "count", 30, "high"⟩],
         ["Dropped negative metric completions habitica LAST_30_DAYS"]) ∧
    ¬ ((-1 : ℚ) > (5 : ℚ)) := by
  constructor
  · rfl
  · norm_num

/-- Witness for the amended C5 at a concrete nonnegative pair whose 30
day value exceeds the 90 day value. -/
theorem validate_metrics_pair_amended_witness :
    (⟨"completions", "habitica", Window.LAST_30_DAYS, some 7, "count", 10, "high"⟩ : Metric) ∉
      (validate_metrics
        [⟨"completions", "habitica", Window.LAST_30_DAYS, some 7, "count", 10, "high"⟩,
         ⟨"completions", "habitica", Window.LAST_90_DAYS, some 4, "count", 30, "high"⟩]).1 ∧
    (⟨"completions", "habitica", Window.LAST_90_DAYS, some 4, "count", 30, "high"⟩ : Metric) ∈
      (validate_metrics
        [⟨"completions", "habitica", Window.LAST_30_DAYS, some 7, "count", 10, "high"⟩,
         ⟨"completions", "habitica", Window.LAST_90_DAYS, some 4, "count", 30, "high"⟩]).1 ∧
    window_conflict_caveat
      (⟨"completions", "habitica", Window.LAST_30_DAYS, some 7, "count", 10, "high"⟩ : Metric) ∈
      (validate_metrics
        [⟨"completions", "habitica", Window.LAST_30_DAYS, some 7, "count", 10, "high"⟩,
         ⟨"completions", "habitica", Window.LAST_90_DAYS, some 4, "count", 30, "high"⟩]).2 := by
  refine (validate_metrics_pair_amended
    [⟨"completions", "habitica", Window.LAST_30_DAYS, some 7, "count", 10, "high"⟩,
     ⟨"completions", "habitica", Window.LAST_90_DAYS, some 4, "count", 30, "high"⟩]
    ⟨"completions", "habitica", Window.LAST_30_DAYS, some 7, "count", 10, "high"⟩
    ⟨"completions", "habitica", Window.LAST_90_DAYS, some 4, "count", 30, "high"⟩
    7 4 (by simp) (by simp) rfl rfl rfl rfl rfl rfl ?_ ?_ ?_).1 (by norm_num)
  · rintro m hm v hv
    fin_cases hm <;> (simp only [Option.some.injEq] at hv) <;> subst hv <;> norm_num
  · rintro x hx hs hw hn
    fin_cases hx
    · rfl
    · simp at hw
  · rintro x hx hs hw hn
    fin_cases hx
    · simp at hw
    · rfl

/-- A row of a per-source daily series as consumed by `_consistency`,
`_streak_from_series` and friends: the day (as an integer day number, see
`_as_date`) and the per-source quantity columns, of which exactly one is
populated per source. -/
structure DailyRow where
  day : ℤ
  completed : Option ℚ := none
  minutes : Option ℚ := none
  steps : Option ℚ := none
  deriving DecidableEq, Repr

/-- The Python expression `a or b` on an optional float `a`: `a` is kept
when it is present and nonzero, else `b`. -/
def or_q : Option ℚ → ℚ → ℚ
  | some x, d => if x = 0 then d else x
  | none, d => d

/-- The value extraction `float(row.get("completed") or row.get("minutes")
or row.get("steps") or 0)` used throughout the per-day analysis. -/
def row_value (r : DailyRow) : ℚ :=
  or_q r.completed (or_q r.minutes (or_q r.steps 0))

/-- The dict returned by `_streak_from_series`. -/
structure StreakResult where
  current : ℕ
  longest : ℕ
  deriving DecidableEq, Repr

/-- One iteration of the loop of `_streak_from_series` (services.py lines
612-624) over the running state (streak, longest, last_day). -/
def streak_step (threshold : ℚ) (st : ℕ × ℕ × Option ℤ) (row : DailyRow) :
    ℕ × ℕ × Option ℤ :=
  if threshold ≤ row_value row then
    let s := match st.2.2 with
      | some d => if row.day - d = 1 then st.1 + 1 else 1
      | none => 1
    (s, max st.2.1 s, some row.day)
  else
    (0, st.2.1, some row.day)

/-- The `sorted(series, key=lambda r: self._as_date(r["day"]))` call:
Python sorted is stable, as is insertion sort. -/
def row_sorted (series : List DailyRow) : List DailyRow :=
  series.insertionSort (fun a b => a.day ≤ b.day)

/-- `_streak_from_series` (services.py lines 609-625): walk the series
chronologically, resetting on a below-threshold day, restarting at 1
after a calendar gap, incrementing on consecutive qualifying days. -/
def streak_from_series (series : List DailyRow) (threshold : ℚ := 1) : StreakResult :=
  let st := (row_sorted series).foldl (streak_step threshold) (0, 0, none)
  ⟨st.1, st.2.1⟩

/-- C8: the streak walk resets the current streak to 0 on a
below-threshold day, restarts at 1 on a qualifying day not immediately
following the previously processed day, increments by 1 on a qualifying
day immediately following it (tracking the longest streak), and the
daily values [1,1,0,1,1,1] on six consecutive days with threshold 1
yield longest 3 and current 3, the current streak being 0 right after
the 0 day. -/
theorem streak_from_series_spec :
    (∀ (t : ℚ) (st : ℕ × ℕ × Option ℤ) (row : DailyRow), row_value row < t →
      (streak_step t st row).1 = 0 ∧ (streak_step t st row).2.1 = st.2.1) ∧
    (∀ (t : ℚ) (st : ℕ × ℕ × Option ℤ) (row : DailyRow) (d : ℤ),
      t ≤ row_value row → st.2.2 = some d → row.day - d = 1 →
      (streak_step t st row).1 = st.1 + 1 ∧
      (streak_step t st row).2.1 = max st.2.1 (st.1 + 1)) ∧
    (∀ (t : ℚ) (st : ℕ × ℕ × Option ℤ) (row : DailyRow) (d : ℤ),
      t ≤ row_value row → st.2.2 = some d → row.day - d ≠ 1 →
      (streak_step t st row).1 = 1 ∧
      (streak_step t st row).2.1 = max st.2.1 1) ∧
    (∀ (t : ℚ) (st : ℕ × ℕ × Option ℤ) (row : DailyRow),
      t ≤ row_value row → st.2.2 = none →
      (streak_step t st row).1 = 1 ∧
      (streak_step t st row).2.1 = max st.2.1 1) ∧
    streak_from_series
      [⟨0, some 1, none, none⟩, ⟨1, some 1, none, none⟩, ⟨2, some 0, none, none⟩,
       ⟨3, some 1, none, none⟩, ⟨4, some 1, none, none⟩, ⟨5, some 1, none, none⟩] 1
      = ⟨3, 3⟩ ∧
    streak_from_series
      [⟨0, some 1, none, none⟩, ⟨1, some 1, none, none⟩, ⟨2, some 0, none, none⟩] 1
      = ⟨0, 2⟩ := by
  refine ⟨?_, ?_, ?_, ?_, by rfl, by rfl⟩
  · intro t st row h
    rw [streak_step, if_neg (not_le.mpr h)]
    exact ⟨rfl, rfl⟩
  · intro t st row d hmeets hlast hgap
    rw [streak_step, if_pos hmeets]
    simp [hlast, hgap]
  · intro t st row d hmeets hlast hgap
    rw [streak_step, if_pos hmeets]
    simp [hlast, hgap]
  · intro t st row hmeets hlast
    rw [streak_step, if_pos hmeets]
    simp [hlast]

/-- Witness for C8 at concrete steps: a below-threshold day resets to 0,
a consecutive qualifying day increments 1 to 2, a qualifying day after a
2 day gap restarts at 1, and a first qualifying day starts at 1. -/
theorem streak_from_series_spec_witness :
    ((streak_step 1 (2, 2, some 9) ⟨10, some 0, none, none⟩).1 = 0 ∧
      (streak_step 1 (2, 2, some 9) ⟨10, some 0, none, none⟩).2.1 = 2) ∧
    ((streak_step 1 (1, 1, some 9) ⟨10, some 3, none, none⟩).1 = 1 + 1 ∧
      (streak_step 1 (1, 1, some 9) ⟨10, some 3, none, none⟩).2.1 = max 1 (1 + 1)) ∧
    ((streak_step 1 (4, 4, some 9) ⟨11, some 3, none, none⟩).1 = 1 ∧
      (streak_step 1 (4, 4, some 9) ⟨11, some 3, none, none⟩).2.1 = max 4 1) ∧
    ((streak_step 1 (0, 0, none) ⟨10, some 3, none, none⟩).1 = 1 ∧
      (streak_step 1 (0, 0, none) ⟨10, some 3, none, none⟩).2.1 = max 0 1) :=
  ⟨streak_from_series_spec.1 1 (2, 2, some 9) ⟨10, some 0, none, none⟩ (by norm_num [row_value, or_q]),
   streak_from_series_spec.2.1 1 (1, 1, some 9) ⟨10, some 3, none, none⟩ 9
     (by norm_num [row_value, or_q]) rfl (by norm_num),
   streak_from_series_spec.2.2.1 1 (4, 4, some 9) ⟨11, some 3, none, none⟩ 9
     (by norm_num [row_value, or_q]) rfl (by norm_num),
   streak_from_series_spec.2.2.2.1 1 (0, 0, none) ⟨10, some 3, none, none⟩
     (by norm_num [row_value, or_q]) rfl⟩

/-- `statistics.median` as called by `_consistency`: sort, middle element
for odd length, average of the two middle elements for even length (only
called on nonempty lists; the default 0 is unreachable there). -/
def median_q (values : List ℚ) : ℚ :=
  let s := values.insertionSort (· ≤ ·)
  let n := s.length
  if n % 2 = 1 then s.getD (n / 2) 0
  else (s.getD (n / 2 - 1) 0 + s.getD (n / 2) 0) / 2

/-- Population variance, so `statistics.pstdev values` is its real square
root. -/
def pvariance_q (values : List ℚ) : ℚ :=
  let mean := values.sum / values.length
  ((values.map (fun x => (x - mean) ^ 2)).sum) / values.length

/-- Round half to even on a rational, the rounding Python `round` uses. -/
def round_half_even (x : ℚ) : ℤ :=
  if x - ⌊x⌋ < 1/2 then ⌊x⌋
  else if 1/2 < x - ⌊x⌋ then ⌊x⌋ + 1
  else if Even ⌊x⌋ then ⌊x⌋ else ⌊x⌋ + 1

/-- Python `round(x, nd)` on a rational value. -/
def py_round (x : ℚ) (nd : ℕ) : ℚ :=
  (round_half_even (x * 10 ^ nd) : ℚ) / 10 ^ nd

/-- The dict returned by `_consistency`. -/
structure Consistency where
  active_ratio : ℚ
  median : ℚ
  cv : Option ℝ
  burstiness : Option String

/-- The coefficient of variation of `_consistency` (services.py line
605): `pstdev(values) / mean` when the mean is nonzero, else `None`. -/
noncomputable def consistency_cv (values : List ℚ) : Option ℝ :=
  if values.sum / values.length = 0 then none
  else some (Real.sqrt (pvariance_q values) / ((values.sum / values.length : ℚ) : ℝ))

/-- The burstiness expression of `_consistency` (line 606):
`"spread" if cv and cv < 0.5 else "clustered"`.  A `None` cv and a zero
cv are both falsy in Python, so both fall to "clustered". -/
noncomputable def burstiness_of (cv : Option ℝ) : String :=
  match cv with
  | some c => if c ≠ 0 ∧ c < 1/2 then "spread" else "clustered"
  | none => "clustered"

/-- `_consistency` (services.py lines 598-607). -/
noncomputable def consistency (series : List DailyRow) (window_days : ℕ) : Consistency :=
  let values := series.map row_value
  if values = [] then ⟨0, 0, none, none⟩
  else
    ⟨py_round ((values.length : ℚ) / (window_days : ℚ)) 2,
     median_q values,
     consistency_cv values,
     some (burstiness_of (consistency_cv values))⟩

/-- C2 amended: burstiness is "spread" exactly when cv is defined,
NONZERO and below 0.5; a zero cv and an undefined cv (nonempty series
with zero mean) both report "clustered"; only an empty series leaves
burstiness unreported. -/
theorem consistency_burstiness (series : List DailyRow) (wd : ℕ) :
    (series = [] →
      (consistency series wd).cv = none ∧ (consistency series wd).burstiness = none) ∧
    (∀ c : ℝ, (consistency series wd).cv = some c →
      ((consistency series wd).burstiness = some "spread" ↔ c ≠ 0 ∧ c < 1/2)) ∧
    (series ≠ [] → (consistency series wd).cv = none →
      (consistency series wd).burstiness = some "clustered") := by
  refine ⟨?_, ?_, ?_⟩
  · intro h
    subst h
    simp [consistency]
  · intro c hc
    by_cases hs : series = []
    · subst hs
      simp [consistency] at hc
    · have hv : series.map row_value ≠ [] := by simpa using hs
      have hcv : consistency_cv (series.map row_value) = some c := by
        simpa [consistency, hv] using hc
      have hb : (consistency series wd).burstiness
          = some (burstiness_of (consistency_cv (series.map row_value))) := by
        simp [consistency, hv]
      rw [hb, hcv]
      unfold burstiness_of
      by_cases hcond : c ≠ 0 ∧ c < 1/2
      · simp [hcond]
      · simp [hcond]
  · intro hs hcv
    have hv : series.map row_value ≠ [] := by simpa using hs
    have hcv2 : consistency_cv (series.map row_value) = none := by
      simpa [consistency, hv] using hcv
    have hb : (consistency series wd).burstiness
        = some (burstiness_of (consistency_cv (series.map row_value))) := by
      simp [consistency, hv]
    rw [hb, hcv2]
    rfl

/-- C2 counterexample: for the two-day series with constant value 5 the
cv is defined and equals 0 (below 0.5), yet the code reports
"clustered", not "spread" as the claim states; and for a one-day zero
series the cv is undefined, yet burstiness IS reported, as
"clustered". -/
theorem consistency_burstiness_counterexample :
    (consistency [⟨0, some 5, none, none⟩, ⟨1, some 5, none, none⟩] 30).cv = some 0 ∧
    ((0 : ℝ) < 1/2) ∧
    (consistency [⟨0, some 5, none, none⟩, ⟨1, some 5, none, none⟩] 30).burstiness
      = some "clustered" ∧
    some "clustered" ≠ some "spread" ∧
    (consistency [⟨0, some 0, none, none⟩] 30).cv = none ∧
    (consistency [⟨0, some 0, none, none⟩] 30).burstiness = some "clustered" := by
  have hv : ([⟨0, some 5, none, none⟩, ⟨1, some 5, none, none⟩] : List DailyRow).map row_value
      = [5, 5] := by norm_num [row_value, or_q]
  have hcv : consistency_cv [5, 5] = some 0 := by
    rw [consistency_cv]
    norm_num [pvariance_q]
  have hv0 : ([⟨0, some 0, none, none⟩] : List DailyRow).map row_value = [0] := by
    norm_num [row_value, or_q]
  have hcv0 : consistency_cv [0] = none := by
    rw [consistency_cv]
    norm_num
  refine ⟨?_, by norm_num, ?_, by simp, ?_, ?_⟩
  · simp [consistency, hv, hcv]
  · simp [consistency, hv, hcv, burstiness_of]
  · simp [consistency, hv0, hcv0]
  · simp [consistency, hv0, hcv0, burstiness_of]

/-- Witness for the amended C2: at a constant nonzero two-day series the
cv equals 0 and the spread test reduces to the (false) condition that 0
is nonzero and below one half; at a three-day zero series the cv is
undefined and burstiness is reported as "clustered". -/
theorem consistency_burstiness_witness :
    ((consistency [⟨3, some 2, none, none⟩, ⟨4, some 2, none, none⟩] 7).burstiness
        = some "spread" ↔ ((0 : ℝ) ≠ 0 ∧ (0 : ℝ) < 1/2)) ∧
    (consistency [⟨3, some 0, none, none⟩, ⟨4, none, some 0, none⟩, ⟨5, none, none, some 0⟩] 7).burstiness
      = some "clustered" := by
  constructor
  · refine (consistency_burstiness
      [⟨3, some 2, none, none⟩, ⟨4, some 2, none, none⟩] 7).2.1 0 ?_
    have hv : ([⟨3, some 2, none, none⟩, ⟨4, some 2, none, none⟩] : List DailyRow).map row_value
        = [2, 2] := by norm_num [row_value, or_q]
    have hcv : consistency_cv [2, 2] = some 0 := by
      rw [consistency_cv]
      norm_num [pvariance_q]
    simp [consistency, hv, hcv]
  · refine (consistency_burstiness
      [⟨3, some 0, none, none⟩, ⟨4, none, some 0, none⟩, ⟨5, none, none, some 0⟩] 7).2.2
      (by simp) ?_
    have hv : ([⟨3, some 0, none, none⟩, ⟨4, none, some 0, none⟩, ⟨5, none, none, some 0⟩] :
        List DailyRow).map row_value = [0, 0, 0] := by norm_num [row_value, or_q]
    have hcv : consistency_cv [0, 0, 0] = none := by
      rw [consistency_cv]
      norm_num
    simp [consistency, hv, hcv]

/-- The `TrendPoint` dataclass of `models.py`. -/
structure TrendPoint where
  period : String
  value : ℚ
  deriving DecidableEq, Repr

/-- The `PluginSummary` dataclass of `models.py`, restricted to the
fields `_recent_activity_factor` reads (the category and recent window
dicts are untouched by the functions embedded here). -/
structure PluginSummary where
  plugin : String
  monthly : List TrendPoint
  deriving DecidableEq, Repr

/-- `_recent_activity_factor` (services.py lines 384-393): note the
denominator `prior_avg * 2`. -/
def recent_activity_factor (s : PluginSummary) : ℚ :=
  match s.monthly with
  | [] => 0
  | last :: rest =>
    let prior_values : List ℚ :=
      if rest.map TrendPoint.value = [] then [0] else rest.map TrendPoint.value
    let prior_avg := prior_values.sum / (prior_values.length : ℚ)
    if prior_avg = 0 then (if 0 < last.value then 1 else 0)
    else min 1 (last.value / (prior_avg * 2))

/-- Modelled from the claim wording for comparison: the ratio of the
latest period value to the average of the prior period values, capped at
1, with the same degenerate cases. -/
def claimed_recent_activity_factor (s : PluginSummary) : ℚ :=
  match s.monthly with
  | [] => 0
  | last :: rest =>
    let prior_values : List ℚ :=
      if rest.map TrendPoint.value = [] then [0] else rest.map TrendPoint.value
    let prior_avg := prior_values.sum / (prior_values.length : ℚ)
    if prior_avg = 0 then (if 0 < last.value then 1 else 0)
    else min 1 (last.value / prior_avg)

/-- The amended formula: the ratio of the latest period value to TWICE
the average of the prior period values, capped at 1; 1 for a positive
latest value over a zero or absent prior average, 0 otherwise, and 0 for
an empty monthly series. -/
def amended_recent_activity_factor (s : PluginSummary) : ℚ :=
  match s.monthly with
  | [] => 0
  | last :: rest =>
    let priors := rest.map TrendPoint.value
    let prior_avg := if priors = [] then 0 else priors.sum / (priors.length : ℚ)
    if prior_avg = 0 then (if 0 < last.value then 1 else 0)
    else min 1 (last.value / (2 * prior_avg))

/-- C3 counterexample: with monthly values [10, 10] the prior average is
10, so the claimed formula gives min(1, 10/10) = 1, while the code
computes min(1, 10/(10*2)) = 1/2. -/
theorem recent_activity_factor_counterexample :
    recent_activity_factor ⟨"asana", [⟨"2024-02", 10⟩, ⟨"2024-01", 10⟩]⟩ = 1/2 ∧
    claimed_recent_activity_factor ⟨"asana", [⟨"2024-02", 10⟩, ⟨"2024-01", 10⟩]⟩ = 1 ∧
    (1/2 : ℚ) ≠ 1 := by
  refine ⟨?_, ?_, by norm_num⟩ <;>
    norm_num [recent_activity_factor, claimed_recent_activity_factor]

/-- C3 amended: the recent activity factor equals the latest-to-twice-
prior-average ratio capped at 1 (with the degenerate cases of the
claim), and in particular never exceeds 1. -/
theorem recent_activity_factor_amended (s : PluginSummary) :
    recent_activity_factor s = amended_recent_activity_factor s ∧
    recent_activity_factor s ≤ 1 := by
  constructor
  · unfold recent_activity_factor amended_recent_activity_factor
    cases s.monthly with
    | nil => rfl
    | cons last rest =>
      by_cases h : rest.map TrendPoint.value = []
      · simp [h]
      · simp only [h, if_neg, if_false]
        rw [mul_comm]
  · cases hm : s.monthly with
    | nil => simp [recent_activity_factor, hm]
    | cons last rest =>
      simp only [recent_activity_factor, hm]
      split <;> split
      · split <;> norm_num
      · exact min_le_left 1 _
      · split <;> norm_num
      · exact min_le_left 1 _

/-- The dict comprehension `b_map = {k: v for k, v in b}` of `_pearson`:
for a duplicated key the LAST pair wins, hence the reversed search. -/
def dict_of (b : List (String × ℚ)) (k : String) : Option ℚ :=
  ((b.reverse).find? (fun p => p.1 == k)).map Prod.snd

/-- The alignment loop of `_pearson` (services.py lines 419-424): values
of `a` paired with the `b` value of the same period key, in the order of
`a`. -/
def aligned (a b : List (String × ℚ)) : List (ℚ × ℚ) :=
  a.filterMap (fun p => (dict_of b p.1).map (fun w => (p.2, w)))

/-- The centered square sum of one aligned series, so that the Pearson
denominator of `_pearson` is the real square root of
`centered_sq_sum xs * centered_sq_sum ys`. -/
def centered_sq_sum (xs : List ℚ) : ℚ :=
  let mean := xs.sum / (xs.length : ℚ)
  (xs.map (fun x => (x - mean) ^ 2)).sum

/-- The Pearson numerator of `_pearson`: the sum of products of centered
coordinates of the aligned pairs. -/
def cross_sum (ps : List (ℚ × ℚ)) : ℚ :=
  let mx := (ps.map Prod.fst).sum / (ps.length : ℚ)
  let my := (ps.map Prod.snd).sum / (ps.length : ℚ)
  (ps.map (fun p => (p.1 - mx) * (p.2 - my))).sum

/-- Round half to even on a real, the rounding Python `round` uses. -/
noncomputable def round_half_even_r (x : ℝ) : ℤ :=
  if x - ⌊x⌋ < 1/2 then ⌊x⌋
  else if 1/2 < x - ⌊x⌋ then ⌊x⌋ + 1
  else if Even ⌊x⌋ then ⌊x⌋ else ⌊x⌋ + 1

/-- Python `round(x, nd)` on a real value. -/
noncomputable def py_round_r (x : ℝ) (nd : ℕ) : ℝ :=
  (round_half_even_r (x * 10 ^ nd) : ℝ) / 10 ^ nd

/-- `_pearson` (services.py lines 417-434): align by period key, return
`None` below 3 aligned points or on a zero denominator, else the
correlation rounded to 3 decimals. -/
noncomputable def pearson (a b : List (String × ℚ)) : Option ℝ :=
  let ps := aligned a b
  if ps.length < 3 then none
  else
    let num := cross_sum ps
    let sxx := centered_sq_sum (ps.map Prod.fst)
    let syy := centered_sq_sum (ps.map Prod.snd)
    let den : ℝ := Real.sqrt (((sxx * syy : ℚ) : ℝ))
    if den = 0 then none else some (py_round_r ((num : ℝ) / den) 3)

/-- Helper: a centered square sum is nonnegative. -/
theorem centered_sq_sum_nonneg (xs : List ℚ) : 0 ≤ centered_sq_sum xs := by
  unfold centered_sq_sum
  apply List.sum_nonneg
  intro x hx
  simp only [List.mem_map] at hx
  obtain ⟨y, _, rfl⟩ := hx
  positivity

/-- C6: `_pearson` returns None below 3 shared period labels and on zero
variance of either aligned series, otherwise the rounded standard
formula; and the perfectly positively related 4 point series (1,2,3,4)
against its double yields exactly r = 1. -/
theorem pearson_spec :
    (∀ a b : List (String × ℚ), (aligned a b).length < 3 → pearson a b = none) ∧
    (∀ a b : List (String × ℚ),
      centered_sq_sum ((aligned a b).map Prod.fst) = 0 ∨
        centered_sq_sum ((aligned a b).map Prod.snd) = 0 →
      pearson a b = none) ∧
    (∀ a b : List (String × ℚ), 3 ≤ (aligned a b).length →
      centered_sq_sum ((aligned a b).map Prod.fst) ≠ 0 →
      centered_sq_sum ((aligned a b).map Prod.snd) ≠ 0 →
      pearson a b = some (py_round_r ((cross_sum (aligned a b) : ℝ) /
        Real.sqrt (((centered_sq_sum ((aligned a b).map Prod.fst) *
          centered_sq_sum ((aligned a b).map Prod.snd) : ℚ) : ℝ))) 3)) ∧
    (aligned [("m1", 1), ("m2", 2), ("m3", 3), ("m4", 4)]
             [("m1", 2), ("m2", 4), ("m3", 6), ("m4", 8)]).length = 4 ∧
    pearson [("m1", 1), ("m2", 2), ("m3", 3), ("m4", 4)]
            [("m1", 2), ("m2", 4), ("m3", 6), ("m4", 8)] = some 1 := by
  refine ⟨?_, ?_, ?_, by rfl, ?_⟩
  · intro a b h
    simp only [pearson]
    rw [if_pos h]
  · intro a b h
    simp only [pearson]
    by_cases hlen : (aligned a b).length < 3
    · rw [if_pos hlen]
    · rw [if_neg hlen]
      have hd : Real.sqrt (((centered_sq_sum ((aligned a b).map Prod.fst) *
          centered_sq_sum ((aligned a b).map Prod.snd) : ℚ) : ℝ)) = 0 := by
        rcases h with h | h <;> rw [h] <;> simp
      rw [if_pos hd]
  · intro a b hlen hx hy
    simp only [pearson]
    rw [if_neg (not_lt.mpr hlen)]
    have hxpos : 0 < centered_sq_sum ((aligned a b).map Prod.fst) :=
      lt_of_le_of_ne (centered_sq_sum_nonneg _) (Ne.symm hx)
    have hypos : 0 < centered_sq_sum ((aligned a b).map Prod.snd) :=
      lt_of_le_of_ne (centered_sq_sum_nonneg _) (Ne.symm hy)
    have hprod : (0 : ℝ) < ((centered_sq_sum ((aligned a b).map Prod.fst) *
        centered_sq_sum ((aligned a b).map Prod.snd) : ℚ) : ℝ) := by
      exact_mod_cast mul_pos hxpos hypos
    rw [if_neg (ne_of_gt (Real.sqrt_pos.mpr hprod))]
  · have hal : aligned [("m1", 1), ("m2", 2), ("m3", 3), ("m4", 4)]
        [("m1", 2), ("m2", 4), ("m3", 6), ("m4", 8)]
        = [((1:ℚ), (2:ℚ)), (2, 4), (3, 6), (4, 8)] := by rfl
    simp only [pearson, hal]
    rw [if_neg (by norm_num)]
    have hsxx : centered_sq_sum (List.map Prod.fst [((1:ℚ), (2:ℚ)), (2, 4), (3, 6), (4, 8)])
        = 5 := by norm_num [centered_sq_sum]
    have hsyy : centered_sq_sum (List.map Prod.snd [((1:ℚ), (2:ℚ)), (2, 4), (3, 6), (4, 8)])
        = 20 := by norm_num [centered_sq_sum]
    have hcross : cross_sum [((1:ℚ), (2:ℚ)), (2, 4), (3, 6), (4, 8)] = 10 := by
      norm_num [cross_sum]
    rw [hsxx, hsyy, hcross]
    rw [show (((5 : ℚ) * 20 : ℚ) : ℝ) = (10 : ℝ) ^ 2 by norm_num]
    rw [Real.sqrt_sq (by norm_num : (0:ℝ) ≤ 10)]
    rw [if_neg (by norm_num)]
    rw [show (((10 : ℚ) : ℝ)) / (10 : ℝ) = 1 by norm_num]
    rw [show py_round_r 1 3 = 1 by unfold py_round_r round_half_even_r; norm_num]

/-- Witness for C6: a single shared period yields None, a zero variance
left series over 3 shared periods yields None, and the nondegenerate 4
point example takes the rounded-formula branch. -/
theorem pearson_spec_witness :
    pearson [("a", 1)] [("a", 2)] = none ∧
    pearson [("a", 1), ("b", 1), ("c", 1)] [("a", 1), ("b", 2), ("c", 3)] = none ∧
    pearson [("m1", 1), ("m2", 2), ("m3", 3), ("m4", 4)]
            [("m1", 2), ("m2", 4), ("m3", 6), ("m4", 8)]
      = some (py_round_r ((cross_sum (aligned [("m1", 1), ("m2", 2), ("m3", 3), ("m4", 4)]
            [("m1", 2), ("m2", 4), ("m3", 6), ("m4", 8)]) : ℝ) /
        Real.sqrt (((centered_sq_sum ((aligned [("m1", 1), ("m2", 2), ("m3", 3), ("m4", 4)]
            [("m1", 2), ("m2", 4), ("m3", 6), ("m4", 8)]).map Prod.fst) *
          centered_sq_sum ((aligned [("m1", 1), ("m2", 2), ("m3", 3), ("m4", 4)]
            [("m1", 2), ("m2", 4), ("m3", 6), ("m4", 8)]).map Prod.snd) : ℚ) : ℝ))) 3) :=
  ⟨pearson_spec.1 _ _ (by decide),
   pearson_spec.2.1 _ _ (Or.inl (by
     rw [show aligned [("a", 1), ("b", 1), ("c", 1)] [("a", 1), ("b", 2), ("c", 3)]
         = [((1:ℚ), (1:ℚ)), (1, 2), (1, 3)] from rfl]
     norm_num [centered_sq_sum])),
   pearson_spec.2.2.1 _ _ (by decide)
     (by
       rw [show aligned [("m1", 1), ("m2", 2), ("m3", 3), ("m4", 4)]
           [("m1", 2), ("m2", 4), ("m3", 6), ("m4", 8)]
           = [((1:ℚ), (2:ℚ)), (2, 4), (3, 6), (4, 8)] from rfl]
       norm_num [centered_sq_sum])
     (by
       rw [show aligned [("m1", 1), ("m2", 2), ("m3", 3), ("m4", 4)]
           [("m1", 2), ("m2", 4), ("m3", 6), ("m4", 8)]
           = [((1:ℚ), (2:ℚ)), (2, 4), (3, 6), (4, 8)] from rfl]
       norm_num [centered_sq_sum])⟩

/-- A fragment of the JSON values `json.dumps` serializes in
`_context_from_metrics`: the contexts proved about below hold only
strings, arrays and objects. -/
inductive Json where
  | str (s : String)
  | arr (elems : List Json)
  | obj (fields : List (String × Json))

/-- A JSON string literal; with `ensure_ascii=False` and no escapable
characters in the keys and values used here, this is plain quoting. -/
def quote_str (s : String) : List Char :=
  ("\"" ++ s ++ "\"").data

mutual

/-- `json.dumps` with the default separators (", " and ": "), as a
character list. -/
def json_dumps : Json → List Char
  | .str s => quote_str s
  | .arr es => "[".data ++ dumps_elems es ++ "]".data
  | .obj fs => "\x7b".data ++ dumps_fields fs ++ "\x7d".data

/-- Array elements joined by ", ". -/
def dumps_elems : List Json → List Char
  | [] => []
  | [e] => json_dumps e
  | e :: es => json_dumps e ++ ", ".data ++ dumps_elems es

/-- Object entries "key: value" joined by ", ", in insertion order. -/
def dumps_fields : List (String × Json) → List Char
  | [] => []
  | [(k, v)] => quote_str k ++ ": ".data ++ json_dumps v
  | (k, v) :: fs => quote_str k ++ ": ".data ++ json_dumps v ++ ", ".data ++ dumps_fields fs

end

/-- The context dict built by `_context_from_metrics` (services.py lines
781-787) for the run with no metrics, no caveats and no snapshots: with
no metrics there are no sources, so `derived` is empty, `_highlights` of
an empty dict yields three empty lists, `_changes` of an empty metric
list yields three empty lists, and `uncertainties` is the empty caveat
list. -/
def empty_context_full : Json :=
  .obj [("period", .str "last_30_days"),
        ("sources", .obj []),
        ("highlights", .obj [("wins", .arr []), ("streaks", .arr []), ("stability", .arr [])]),
        ("changes", .obj [("meaningful_increases", .arr []), ("meaningful_decreases", .arr []),
                          ("no_change", .arr [])]),
        ("uncertainties", .arr [])]

/-- The same context after `_context_from_metrics` pops the "changes" and
"uncertainties" sections (lines 791-792). -/
def empty_context_reduced : Json :=
  .obj [("period", .str "last_30_days"),
        ("sources", .obj []),
        ("highlights", .obj [("wins", .arr []), ("streaks", .arr []), ("stability", .arr [])])]

/-- The budget control tail of `_context_from_metrics` (services.py lines
788-794), parametric in the two serializations: `full` is the dump of the
whole context, `reduced` the dump after the changes and uncertainties
sections are popped.  When the full serialization exceeds the budget the
reduced serialization is sliced to the budget, with nothing appended. -/
def context_truncate (max_chars : ℕ) (full reduced : List Char) : List Char :=
  if max_chars < full.length then reduced.take max_chars else full

/-- The `clamp` closure of `_compact_context` (services.py lines
446-449), the only place a truncation marker is produced; `build_context`
does not call it. -/
def clamp (max_chars : ℕ) (text : List Char) : List Char :=
  if text.length ≤ max_chars then text else text.take max_chars ++ ("... (truncated)".data)

/-- The budget normalization of `__init__` (services.py line 68):
`min(llm["max_context_chars"], 6000)`. -/
def effective_max_context_chars (configured : ℕ) : ℕ :=
  min configured 6000

/-- Helper: the context returned by the budget control tail never
exceeds the budget. -/
theorem context_truncate_length_le (b : ℕ) (full reduced : List Char) :
    (context_truncate b full reduced).length ≤ b := by
  unfold context_truncate
  split
  · rw [List.length_take]
    exact min_le_left b _
  · omega

/-- C1 amended: the context string `_context_from_metrics` returns never
exceeds the configured budget; when the full serialization exceeds the
budget the changes and uncertainties sections are dropped and the
reduced serialization is hard truncated to the budget with NO truncation
marker appended; the "... (truncated)" marker exists only in the unused
`_compact_context.clamp` path. -/
theorem context_truncation_amended :
    (∀ (b : ℕ) (full reduced : List Char),
      (context_truncate b full reduced).length ≤ b ∧
      (b < full.length → context_truncate b full reduced = reduced.take b) ∧
      (full.length ≤ b → context_truncate b full reduced = full)) ∧
    (∀ (b : ℕ) (text : List Char), b < text.length →
      clamp b text = text.take b ++ ("... (truncated)".data)) := by
  constructor
  · intro b full reduced
    refine ⟨context_truncate_length_le b full reduced, ?_, ?_⟩
    · intro h
      unfold context_truncate
      rw [if_pos h]
    · intro h
      unfold context_truncate
      rw [if_neg (not_lt.mpr h)]
  · intro b text h
    unfold clamp
    rw [if_neg (not_le.mpr h)]

set_option maxRecDepth 20000 in
/-- Witness for the amended C1 at the concrete empty-input run with the
spec test budget of 80 characters. -/
theorem context_truncation_amended_witness :
    (context_truncate 80 (json_dumps empty_context_full) (json_dumps empty_context_reduced)).length
      ≤ 80 ∧
    context_truncate 80 (json_dumps empty_context_full) (json_dumps empty_context_reduced)
      = (json_dumps empty_context_reduced).take 80 ∧
    clamp 80 (json_dumps empty_context_full)
      = (json_dumps empty_context_full).take 80 ++ ("... (truncated)".data) :=
  ⟨(context_truncation_amended.1 80 (json_dumps empty_context_full)
      (json_dumps empty_context_reduced)).1,
   (context_truncation_amended.1 80 (json_dumps empty_context_full)
      (json_dumps empty_context_reduced)).2.1 (by decide),
   context_truncation_amended.2 80 (json_dumps empty_context_full) (by decide)⟩

set_option maxRecDepth 20000 in
/-- C1 counterexample: for the empty-input run with budget 80 the full
serialization exceeds the budget, the output is a bare 80 character
slice of the reduced serialization, and it does NOT end with a
truncation indicator — neither "(truncated)" nor an ellipsis — contrary
to the claim. -/
theorem context_truncation_counterexample :
    80 < (json_dumps empty_context_full).length ∧
    80 < (json_dumps empty_context_reduced).length ∧
    context_truncate 80 (json_dumps empty_context_full) (json_dumps empty_context_reduced)
      = (json_dumps empty_context_reduced).take 80 ∧
    ¬ (("(truncated)".data).isSuffixOf
        (context_truncate 80 (json_dumps empty_context_full) (json_dumps empty_context_reduced))) ∧
    ¬ (("...".data).isSuffixOf
        (context_truncate 80 (json_dumps empty_context_full) (json_dumps empty_context_reduced))) := by
  exact ⟨by decide, by decide, by decide, by decide, by decide⟩

/-- C10: the effective budget is the configured budget clamped to 6000,
so the context string returned by `build_context` never exceeds 6000
characters, whatever the configured value and whatever the
serializations are. -/
theorem effective_budget_bound (configured : ℕ) (full reduced : List Char) :
    effective_max_context_chars configured = min configured 6000 ∧
    effective_max_context_chars configured ≤ 6000 ∧
    (context_truncate (effective_max_context_chars configured) full reduced).length
      ≤ effective_max_context_chars configured ∧
    (context_truncate (effective_max_context_chars configured) full reduced).length ≤ 6000 :=
  ⟨rfl, min_le_right _ _, context_truncate_length_le _ _ _,
   le_trans (context_truncate_length_le _ _ _) (min_le_right _ _)⟩
